import Mathlib

/-!
Verification of the ChibiOS I2C low-level driver surface
(`os/hal/platforms/STM32/i2c_lld.h`) and the LPC11xx clock-tree
derivation (`os/hal/platforms/LPC11xx/hal_lld.h`).

The repository provides the I2C data structures and the operation
declarations in the header; the operation bodies live outside the
provided sources, so they are modelled from the specification
(doc comments starting `Modelled from the spec:`).  The LPC11xx
clock-tree arithmetic and its compile-time range checks are fully
present in `hal_lld.h` and are embedded directly.
-/

namespace ChibiOS

/- ===================================================================
   LPC11xx clock tree (from src/os/hal/platforms/LPC11xx/hal_lld.h)
   =================================================================== -/

/-- `IRCOSCCLK`: high speed internal clock, 12 MHz. -/
def IRCOSCCLK : Nat := 12000000

/-- `WDGOSCCLK`: watchdog internal clock, 12 MHz. -/
def WDGOSCCLK : Nat := 12000000

/-- The four legal values of `LPC11xx_MAINCLK_SOURCE`
(`SYSMAINCLKSEL_IRCOCS`, `SYSMAINCLKSEL_PLLIN`, `SYSMAINCLKSEL_WDGOSC`,
`SYSMAINCLKSEL_PLLOUT`). -/
inductive MainClkSource
  | IRCOCS
  | PLLIN
  | WDGOSC
  | PLLOUT
deriving DecidableEq

/-- A compile-time clock parameter set for the LPC11xx HAL.
`syspllClkIn` is `LPC11xx_SYSPLLCLKIN`, the oscillator frequency selected
by `LPC11xx_PLLCLK_SOURCE` (`SYSOSCCLK` or `IRCOSCCLK`); the other fields
are the `LPC11xx_SYSPLL_MUL`, `LPC11xx_SYSPLL_DIV`,
`LPC11xx_MAINCLK_SOURCE` and `LPC11xx_SYSCLK_DIV` settings. -/
structure LPC11xxClockConfig where
  syspllClkIn : Nat
  syspllMul : Nat
  syspllDiv : Nat
  mainclkSource : MainClkSource
  sysclkDiv : Nat
deriving DecidableEq

/-- `LPC11xx_SYSPLLCCO = LPC11xx_SYSPLLCLKIN * LPC11xx_SYSPLL_MUL`. -/
def LPC11xx_SYSPLLCCO (c : LPC11xxClockConfig) : Nat :=
  c.syspllClkIn * c.syspllMul

/-- `LPC11xx_SYSPLLCLKOUT = LPC11xx_SYSPLLCCO / LPC11xx_SYSPLL_DIV`
(C integer division on non-negative operands). -/
def LPC11xx_SYSPLLCLKOUT (c : LPC11xxClockConfig) : Nat :=
  LPC11xx_SYSPLLCCO c / c.syspllDiv

/-- `LPC11xx_MAINCLK`, selected by `LPC11xx_MAINCLK_SOURCE`. -/
def LPC11xx_MAINCLK (c : LPC11xxClockConfig) : Nat :=
  match c.mainclkSource with
  | .IRCOCS => IRCOSCCLK
  | .PLLIN => c.syspllClkIn
  | .WDGOSC => WDGOSCCLK
  | .PLLOUT => LPC11xx_SYSPLLCLKOUT c

/-- `LPC11xx_SYSCLK = LPC11xx_MAINCLK / LPC11xx_SYSCLK_DIV` (AHB clock). -/
def LPC11xx_SYSCLK (c : LPC11xxClockConfig) : Nat :=
  LPC11xx_MAINCLK c / c.sysclkDiv

/-- The conjunction of the `#error` range checks of `hal_lld.h`:
`LPC11xx_SYSPLL_MUL` in 1..32, `LPC11xx_SYSPLL_DIV` in {2,4,8,16},
`LPC11xx_SYSPLLCCO` in 156 MHz..320 MHz, `LPC11xx_SYSCLK` at most 50 MHz.
A parameter set compiles exactly when this returns `true`. -/
def clockChecksPass (c : LPC11xxClockConfig) : Bool :=
  (1 ≤ c.syspllMul && c.syspllMul ≤ 32) &&
  (c.syspllDiv == 2 || c.syspllDiv == 4 || c.syspllDiv == 8 || c.syspllDiv == 16) &&
  (156000000 ≤ LPC11xx_SYSPLLCCO c && LPC11xx_SYSPLLCCO c ≤ 320000000) &&
  (LPC11xx_SYSCLK c ≤ 50000000)

/- ===================================================================
   I2C data model (from src/os/hal/platforms/STM32/i2c_lld.h)
   =================================================================== -/

/-- `I2C_opMode_t` from `i2c_lld.h`. -/
inductive I2C_opMode_t
  | opmodeI2C
  | opmodeSMBusDevice
  | opmodeSMBusHost
deriving DecidableEq

/-- `I2C_DutyCycle_t` from `i2c_lld.h`. -/
inductive I2C_DutyCycle_t
  | stdDutyCycle
  | fastDutyCycle_2
  | fastDutyCycle_16_9
deriving DecidableEq

/-- `I2CConfig` from `i2c_lld.h`: driver configuration structure.
`ClockSpeed` is a `uint32_t` documented as "Must be set to a value lower
than 400kHz". -/
structure I2CConfig where
  opMode : I2C_opMode_t
  ClockSpeed : Nat
  FastModeDutyCycle : I2C_DutyCycle_t
  OwnAddress7 : Nat
  OwnAddress10 : Nat
deriving DecidableEq

/-- `I2CSlaveConfig` from `i2c_lld.h`.  The two callback pointers are
modelled as optional opaque handles (`NULL` = `none` = disabled); the
`i2cblock_t *` buffer pointers are modelled as optional byte lists
(`none` = `NULL`); `address` is the packed 16-bit address field;
`thread` is the optional waiting-thread handle of the `I2C_USE_WAIT`
build. -/
structure I2CSlaveConfig where
  id_callback : Option Nat
  id_err_callback : Option Nat
  rxbuf : Option (List Nat)
  rxdepth : Nat
  rxbytes : Nat
  rxbufhead : Nat
  txbuf : Option (List Nat)
  txdepth : Nat
  txbytes : Nat
  txbufhead : Nat
  address : Nat
  rw_bit : Nat
  restart : Bool
  thread : Option Nat
deriving DecidableEq

/-- Modelled from the spec: the driver state enumeration `i2cstate_t` is
referenced by `i2c_lld.h` but defined outside the provided sources; the
states are those of spec section 4.3 (`Uninitialized`, `Stopped`,
`Ready`, `ActiveTransmit`, `ActiveReceive`, `Locked`). -/
inductive i2cstate_t
  | I2C_UNINIT
  | I2C_STOP
  | I2C_READY
  | I2C_ACTIVE_TRANSMIT
  | I2C_ACTIVE_RECEIVE
  | I2C_LOCKED
deriving DecidableEq

/-- `I2CDriver` from `i2c_lld.h`: driver state, current configuration
pointer, currently bound slave configuration pointer, and the opaque
pointer to the `I2Cx` registers block (the mutex/semaphore of the
`I2C_USE_MUTUAL_EXCLUSION` build is not needed by any claim).  The two
configuration pointers are `NULL`-able and modelled as options. -/
structure I2CDriver where
  id_state : i2cstate_t
  id_config : Option I2CConfig
  id_slave_config : Option I2CSlaveConfig
  id_i2c : Nat
deriving DecidableEq

/-- Modelled from the spec: the error taxonomy of spec section 7 plus the
`Aborted` code delivered by `stop()`; the error enumeration itself lives
outside the provided sources. -/
inductive i2cerror_t
  | InvalidState
  | BufferTooSmall
  | AddressNack
  | DataNack
  | ArbitrationLost
  | BusError
  | Overrun
  | Underrun
  | Aborted
deriving DecidableEq

/-- Modelled from the spec: observable hardware-level actions issued by
the driver through the excluded register-access layer (start, repeated
start and stop conditions, byte clocking, clock programming, hardware
release). -/
inductive HwAction
  | StartCond
  | RestartCond
  | StopCond
  | TxByte
  | RxByte
  | ProgramClock
  | ReleaseHw
deriving DecidableEq

/-- Modelled from the spec: callback dispatch events visible to the
caller (`on_complete`, `on_error e`). -/
inductive CbEvent
  | Complete
  | Error (e : i2cerror_t)
deriving DecidableEq

/-- Whether a state is one of the two active-transfer states. -/
def i2cstate_t.isActive : i2cstate_t → Bool
  | .I2C_ACTIVE_TRANSMIT => true
  | .I2C_ACTIVE_RECEIVE => true
  | _ => false

/-- Result of one driver operation: the driver after the call, the
synchronous error returned to the caller (`none` = success), the
hardware actions performed, and the callback events dispatched. -/
structure OpResult where
  drv : I2CDriver
  res : Option i2cerror_t
  hw : List HwAction
  cbs : List CbEvent
deriving DecidableEq

/- ===================================================================
   Driver operations.  The bodies of the `i2c_lld_*` functions declared
   in `i2c_lld.h` are not part of the provided sources; they are
   modelled from the specification (sections 4.1, 4.3, 7).
   =================================================================== -/

/-- Modelled from the spec: validity of an `I2CConfig` for `start`; the
`ClockSpeed` field "Must be set to a value lower than 400kHz"
(`i2c_lld.h` doc comment). -/
def i2cConfigValid (cfg : I2CConfig) : Bool :=
  cfg.ClockSpeed < 400000

/-- Modelled from the spec: `init()` performs one-time setup of a driver
instance, `Uninitialized` to `Stopped`, with no hardware side effects;
the implementation `i2c_lld_init` is declared but not provided. -/
def i2c_lld_init (d : I2CDriver) : I2CDriver :=
  { d with id_state := .I2C_STOP, id_config := none, id_slave_config := none }

/-- Modelled from the spec: `start(config)` requires `state == Stopped`,
programs the clock parameters and transitions to `Ready`; a call from
any other state fails with `InvalidState` and performs no hardware
action; a configuration violating the documented `ClockSpeed` bound is
outside the precondition and is likewise rejected. -/
def i2c_lld_start (d : I2CDriver) (cfg : I2CConfig) : OpResult :=
  if d.id_state = .I2C_STOP then
    if i2cConfigValid cfg then
      ⟨{ d with id_state := .I2C_READY, id_config := some cfg },
        none, [.ProgramClock], []⟩
    else ⟨d, some .InvalidState, [], []⟩
  else ⟨d, some .InvalidState, [], []⟩

/-- Modelled from the spec: `stop()` requires `state != Uninitialized`;
it aborts any in-flight transaction (dispatching `on_error` with
`Aborted` exactly once if one is active), releases the hardware, clears
the configuration and transitions to `Stopped`. -/
def i2c_lld_stop (d : I2CDriver) : OpResult :=
  if d.id_state = .I2C_UNINIT then ⟨d, some .InvalidState, [], []⟩
  else
    ⟨{ d with id_state := .I2C_STOP, id_config := none, id_slave_config := none },
      none, [.ReleaseHw],
      if d.id_state.isActive then [.Error .Aborted] else []⟩

/-- Modelled from the spec: `master_start()` emits a bus start condition
directly. -/
def i2c_lld_master_start (d : I2CDriver) : OpResult :=
  ⟨d, none, [.StartCond], []⟩

/-- Modelled from the spec: `master_stop()` emits a bus stop condition
directly. -/
def i2c_lld_master_stop (d : I2CDriver) : OpResult :=
  ⟨d, none, [.StopCond], []⟩

/-- Modelled from the spec: both buffer validity checks a bind must
perform — the requested byte count may not exceed the buffer depth
(section 3 invariant; violation is the caller error `BufferTooSmall`). -/
def bufferFits (scfg : I2CSlaveConfig) : Bool :=
  scfg.txbytes ≤ scfg.txdepth && scfg.rxbytes ≤ scfg.rxdepth

/-- Modelled from the spec: binding a descriptor starts the transfer at
cursor 0 for both directions. -/
def bindSlave (scfg : I2CSlaveConfig) : I2CSlaveConfig :=
  { scfg with txbufhead := 0, rxbufhead := 0 }

/-- Modelled from the spec: `master_transmit(slave_cfg)` requires
`state == Ready`; it refuses to bind a descriptor whose requested byte
count exceeds its buffer depth (`BufferTooSmall`), otherwise binds the
descriptor, transitions to `ActiveTransmit` and emits the start
condition; completion arrives through the transfer engine. -/
def i2c_lld_master_transmit (d : I2CDriver) (scfg : I2CSlaveConfig) : OpResult :=
  if d.id_state = .I2C_READY then
    if bufferFits scfg then
      ⟨{ d with id_state := .I2C_ACTIVE_TRANSMIT,
                id_slave_config := some (bindSlave scfg) },
        none, [.StartCond], []⟩
    else ⟨d, some .BufferTooSmall, [], []⟩
  else ⟨d, some .InvalidState, [], []⟩

/-- Modelled from the spec: `master_receive(slave_cfg)`, the receive
counterpart of `master_transmit`. -/
def i2c_lld_master_receive (d : I2CDriver) (scfg : I2CSlaveConfig) : OpResult :=
  if d.id_state = .I2C_READY then
    if bufferFits scfg then
      ⟨{ d with id_state := .I2C_ACTIVE_RECEIVE,
                id_slave_config := some (bindSlave scfg) },
        none, [.StartCond], []⟩
    else ⟨d, some .BufferTooSmall, [], []⟩
  else ⟨d, some .InvalidState, [], []⟩

/-- Modelled from the spec: one unit of transfer-engine progress
(interrupt service or one polled iteration).  In `ActiveTransmit` a
pending byte is clocked out and the tx cursor advances; when the tx
phase is done, `restart = true` chains the receive phase with a
repeated-start condition and no stop, while `restart = false` emits the
stop condition, unbinds the descriptor and dispatches `on_complete`.
In `ActiveReceive` a pending byte is clocked in and the rx cursor
advances; when done, the stop condition is emitted, the descriptor is
unbound and `on_complete` dispatched.  Inactive states do nothing. -/
def i2cServeInterrupt (d : I2CDriver) : I2CDriver × List HwAction × List CbEvent :=
  match d.id_state, d.id_slave_config with
  | .I2C_ACTIVE_TRANSMIT, some scfg =>
    if scfg.txbufhead < scfg.txbytes then
      ({ d with id_slave_config := some { scfg with txbufhead := scfg.txbufhead + 1 } },
        [.TxByte], [])
    else if scfg.restart then
      ({ d with id_state := .I2C_ACTIVE_RECEIVE }, [.RestartCond], [])
    else
      ({ d with id_state := .I2C_READY, id_slave_config := none },
        [.StopCond], [.Complete])
  | .I2C_ACTIVE_RECEIVE, some scfg =>
    if scfg.rxbufhead < scfg.rxbytes then
      ({ d with id_slave_config := some { scfg with rxbufhead := scfg.rxbufhead + 1 } },
        [.RxByte], [])
    else
      ({ d with id_state := .I2C_READY, id_slave_config := none },
        [.StopCond], [.Complete])
  | _, _ => (d, [], [])

/-- Modelled from the spec: which asynchronous errors transition the
driver to `Locked` (section 7: `BusError` / `Overrun` / `Underrun`);
the others terminate the transaction and release the bus to `Ready`. -/
def errorLocksBus : i2cerror_t → Bool
  | .BusError => true
  | .Overrun => true
  | .Underrun => true
  | _ => false

/-- Modelled from the spec: the asynchronous error path — when a
hardware/protocol error hits an active transfer, the descriptor is
unbound, `on_error` is dispatched exactly once, and the driver moves to
`Ready` (recoverable errors) or `Locked` (unrecoverable ones). -/
def i2cServeError (d : I2CDriver) (e : i2cerror_t) : I2CDriver × List CbEvent :=
  if d.id_state.isActive then
    ({ d with id_state := if errorLocksBus e then .I2C_LOCKED else .I2C_READY,
              id_slave_config := none }, [.Error e])
  else (d, [])

/-- Modelled from the spec: run the transfer engine for at most `fuel`
units of progress or until the driver leaves the active states,
collecting the hardware actions and callback dispatches. -/
def runSteps : Nat → I2CDriver → I2CDriver × List HwAction × List CbEvent
  | 0, d => (d, [], [])
  | fuel + 1, d =>
    if d.id_state.isActive then
      let s := i2cServeInterrupt d
      let r := runSteps fuel s.1
      (r.1, s.2.1 ++ r.2.1, s.2.2 ++ r.2.2)
    else (d, [], [])

/-- Modelled from the spec: `master_transmit_NI` — the polled variant
executes the bind and then the whole transfer inline on the calling
context; its explicit `restart` argument overrides the flag embedded in
the descriptor for this single call. -/
def i2c_lld_master_transmit_NI (d : I2CDriver) (scfg : I2CSlaveConfig)
    (restart : Bool) : OpResult :=
  let r := i2c_lld_master_transmit d { scfg with restart := restart }
  match r.res with
  | some _ => r
  | none =>
    let t := runSteps (scfg.txbytes + scfg.rxbytes + 2) r.drv
    ⟨t.1, none, r.hw ++ t.2.1, r.cbs ++ t.2.2⟩

/-- Modelled from the spec: `master_receive_NI`, the polled receive
variant. -/
def i2c_lld_master_receive_NI (d : I2CDriver) (scfg : I2CSlaveConfig) : OpResult :=
  let r := i2c_lld_master_receive d scfg
  match r.res with
  | some _ => r
  | none =>
    let t := runSteps (scfg.rxbytes + 1) r.drv
    ⟨t.1, none, r.hw ++ t.2.1, r.cbs ++ t.2.2⟩

/-- Modelled from the spec: the public operations of section 4.1 (init
excepted), as a syntactic enumeration used to quantify over operations. -/
inductive I2COp
  | start (cfg : I2CConfig)
  | stop
  | masterTransmit (scfg : I2CSlaveConfig)
  | masterReceive (scfg : I2CSlaveConfig)
  | masterTransmitNI (scfg : I2CSlaveConfig) (restart : Bool)
  | masterReceiveNI (scfg : I2CSlaveConfig)
deriving DecidableEq

/-- Dispatch of an enumerated operation to its model. -/
def runOp : I2COp → I2CDriver → OpResult
  | .start cfg, d => i2c_lld_start d cfg
  | .stop, d => i2c_lld_stop d
  | .masterTransmit scfg, d => i2c_lld_master_transmit d scfg
  | .masterReceive scfg, d => i2c_lld_master_receive d scfg
  | .masterTransmitNI scfg r, d => i2c_lld_master_transmit_NI d scfg r
  | .masterReceiveNI scfg, d => i2c_lld_master_receive_NI d scfg

/-- Modelled from the spec: the documented state precondition of each
operation (section 4.1): `start` requires `Stopped`, `stop` requires
anything but `Uninitialized`, the transfer operations require `Ready`. -/
def opStatePrecond : I2COp → i2cstate_t → Bool
  | .start _, s => s == .I2C_STOP
  | .stop, s => !(s == .I2C_UNINIT)
  | _, s => s == .I2C_READY

/-- The two statically allocated driver instances `I2CD1` and `I2CD2`
declared in `i2c_lld.h`. -/
structure I2CSystem where
  I2CD1 : I2CDriver
  I2CD2 : I2CDriver
deriving DecidableEq

/-- Selector for one of the two driver instances. -/
inductive I2CInstance
  | D1
  | D2
deriving DecidableEq

/-- Apply an operation to one instance of the two-driver system. -/
def runOpOn (sys : I2CSystem) (i : I2CInstance) (op : I2COp) :
    I2CSystem × OpResult :=
  match i with
  | .D1 =>
    let r := runOp op sys.I2CD1
    ({ sys with I2CD1 := r.drv }, r)
  | .D2 =>
    let r := runOp op sys.I2CD2
    ({ sys with I2CD2 := r.drv }, r)

/- ===================================================================
   Address packing (doc comment of `I2CSlaveConfig.address`)
   =================================================================== -/

/-- Bit 15 of the packed `address` field: the 10-bit/7-bit mode switch,
0 denoting 7-bit mode (`I2CSlaveConfig.address` doc comment). -/
def addrIs10bitMode (a : Nat) : Bool := a.testBit 15

/-- Bits 0..9 of the packed `address` field: the slave address in
10-bit mode. -/
def addr10 (a : Nat) : Nat := a % 1024

/-- Bits 0..6 of the packed `address` field: the slave address in
7-bit mode. -/
def addr7 (a : Nat) : Nat := a % 128

/-- Pack a 7-bit slave address: bit 15 clear, bits 7..14 zero. -/
def packAddr7 (slave : Nat) : Nat := slave % 128

/-- Pack a 10-bit slave address: bit 15 set, bits 0..9 significant. -/
def packAddr10 (slave : Nat) : Nat := 32768 + slave % 1024

/- ===================================================================
   Helper lemmas about the transfer engine
   =================================================================== -/

/-- The transfer engine does nothing outside the active states. -/
theorem runSteps_inactive (fuel : Nat) (d : I2CDriver)
    (h : d.id_state.isActive = false) : runSteps fuel d = (d, [], []) := by
  cases fuel <;> simp [runSteps, h]

/-- One unfolding of `runSteps` in an active state. -/
theorem runSteps_succ_active (n : Nat) (d : I2CDriver)
    (h : d.id_state.isActive = true) :
    runSteps (n + 1) d =
      ((runSteps n (i2cServeInterrupt d).1).1,
        (i2cServeInterrupt d).2.1 ++ (runSteps n (i2cServeInterrupt d).1).2.1,
        (i2cServeInterrupt d).2.2 ++ (runSteps n (i2cServeInterrupt d).1).2.2) := by
  simp [runSteps, h]

/-- Running the receive phase to completion: with `k` bytes left to
receive and at least `k + 1` units of fuel, the engine clocks in `k`
bytes, emits the stop condition, unbinds the descriptor, returns the
driver to `Ready` and dispatches `on_complete`. -/
theorem runSteps_rx_phase (fuel : Nat) :
    ∀ (k : Nat) (d : I2CDriver) (scfg : I2CSlaveConfig),
    k + 1 ≤ fuel →
    d.id_state = .I2C_ACTIVE_RECEIVE →
    d.id_slave_config = some scfg →
    scfg.rxbufhead + k = scfg.rxbytes →
    runSteps fuel d =
      ({ d with id_state := .I2C_READY, id_slave_config := none },
        List.replicate k .RxByte ++ [.StopCond], [.Complete]) := by
  induction fuel with
  | zero => intro k d scfg hk _ _ _; omega
  | succ n ih =>
    intro k d scfg hk hs hb hcount
    have hact : d.id_state.isActive = true := by rw [hs]; rfl
    rw [runSteps_succ_active n d hact]
    cases k with
    | zero =>
      have hnl : ¬ scfg.rxbufhead < scfg.rxbytes := by omega
      have hserve : i2cServeInterrupt d =
          ({ d with id_state := .I2C_READY, id_slave_config := none },
            [.StopCond], [.Complete]) := by
        simp [i2cServeInterrupt, hs, hb, hnl]
      rw [hserve]
      rw [runSteps_inactive n _ (by simp [i2cstate_t.isActive])]
      simp
    | succ j =>
      have hlt : scfg.rxbufhead < scfg.rxbytes := by omega
      have hserve : i2cServeInterrupt d =
          ({ d with
              id_slave_config := some ({ scfg with rxbufhead := scfg.rxbufhead + 1 }) },
            [.RxByte], []) := by
        simp [i2cServeInterrupt, hs, hb, hlt]
      rw [hserve]
      rw [ih j ({ d with
          id_slave_config := some ({ scfg with rxbufhead := scfg.rxbufhead + 1 }) })
        ({ scfg with rxbufhead := scfg.rxbufhead + 1 })
        (by omega) (by simpa using hs) (by simp) (by simp; omega)]
      simp [List.replicate_succ]

/-- Running the transmit phase of a `restart = false` transaction to
completion: `k` bytes out, then the stop condition, unbind, `Ready`,
`on_complete`. -/
theorem runSteps_tx_phase_norestart (fuel : Nat) :
    ∀ (k : Nat) (d : I2CDriver) (scfg : I2CSlaveConfig),
    k + 1 ≤ fuel →
    d.id_state = .I2C_ACTIVE_TRANSMIT →
    d.id_slave_config = some scfg →
    scfg.txbufhead + k = scfg.txbytes →
    scfg.restart = false →
    runSteps fuel d =
      ({ d with id_state := .I2C_READY, id_slave_config := none },
        List.replicate k .TxByte ++ [.StopCond], [.Complete]) := by
  induction fuel with
  | zero => intro k d scfg hk _ _ _ _; omega
  | succ n ih =>
    intro k d scfg hk hs hb hcount hre
    have hact : d.id_state.isActive = true := by rw [hs]; rfl
    rw [runSteps_succ_active n d hact]
    cases k with
    | zero =>
      have hnl : ¬ scfg.txbufhead < scfg.txbytes := by omega
      have hserve : i2cServeInterrupt d =
          ({ d with id_state := .I2C_READY, id_slave_config := none },
            [.StopCond], [.Complete]) := by
        simp [i2cServeInterrupt, hs, hb, hnl, hre]
      rw [hserve]
      rw [runSteps_inactive n _ (by simp [i2cstate_t.isActive])]
      simp
    | succ j =>
      have hlt : scfg.txbufhead < scfg.txbytes := by omega
      have hserve : i2cServeInterrupt d =
          ({ d with
              id_slave_config := some ({ scfg with txbufhead := scfg.txbufhead + 1 }) },
            [.TxByte], []) := by
        simp [i2cServeInterrupt, hs, hb, hlt]
      rw [hserve]
      rw [ih j ({ d with
          id_slave_config := some ({ scfg with txbufhead := scfg.txbufhead + 1 }) })
        ({ scfg with txbufhead := scfg.txbufhead + 1 })
        (by omega) (by simpa using hs) (by simp) (by simp; omega) (by simpa using hre)]
      simp [List.replicate_succ]

/-- Running a `restart = true` transaction from the transmit phase: `k`
bytes out, a repeated-start condition (no stop), `m` bytes in, then the
stop condition, unbind, `Ready`, `on_complete`. -/
theorem runSteps_tx_phase_restart (fuel : Nat) :
    ∀ (k m : Nat) (d : I2CDriver) (scfg : I2CSlaveConfig),
    k + m + 2 ≤ fuel →
    d.id_state = .I2C_ACTIVE_TRANSMIT →
    d.id_slave_config = some scfg →
    scfg.txbufhead + k = scfg.txbytes →
    scfg.restart = true →
    scfg.rxbufhead + m = scfg.rxbytes →
    runSteps fuel d =
      ({ d with id_state := .I2C_READY, id_slave_config := none },
        List.replicate k .TxByte ++
          .RestartCond :: (List.replicate m .RxByte ++ [.StopCond]),
        [.Complete]) := by
  induction fuel with
  | zero => intro k m d scfg hk _ _ _ _ _; omega
  | succ n ih =>
    intro k m d scfg hk hs hb hcount hre hrx
    have hact : d.id_state.isActive = true := by rw [hs]; rfl
    rw [runSteps_succ_active n d hact]
    cases k with
    | zero =>
      have hnl : ¬ scfg.txbufhead < scfg.txbytes := by omega
      have hserve : i2cServeInterrupt d =
          ({ d with id_state := .I2C_ACTIVE_RECEIVE }, [.RestartCond], []) := by
        simp [i2cServeInterrupt, hs, hb, hnl, hre]
      rw [hserve]
      rw [runSteps_rx_phase n m _ scfg (by omega) (by simp) (by simpa using hb) hrx]
      simp
    | succ j =>
      have hlt : scfg.txbufhead < scfg.txbytes := by omega
      have hserve : i2cServeInterrupt d =
          ({ d with
              id_slave_config := some ({ scfg with txbufhead := scfg.txbufhead + 1 }) },
            [.TxByte], []) := by
        simp [i2cServeInterrupt, hs, hb, hlt]
      rw [hserve]
      rw [ih j m ({ d with
          id_slave_config := some ({ scfg with txbufhead := scfg.txbufhead + 1 }) })
        ({ scfg with txbufhead := scfg.txbufhead + 1 })
        (by omega) (by simpa using hs) (by simp) (by simp; omega)
        (by simpa using hre) (by simpa using hrx)]
      simp [List.replicate_succ]

/- ===================================================================
   Invariants, traces and sample fixtures
   =================================================================== -/

/-- The binding invariant of spec section 3: a descriptor is bound
exactly in the two active states. -/
def boundInv (d : I2CDriver) : Prop :=
  d.id_slave_config.isSome = d.id_state.isActive

instance (d : I2CDriver) : Decidable (boundInv d) :=
  inferInstanceAs (Decidable (_ = _))

/-- The buffer invariant of spec section 3 for a bound descriptor: each
progress cursor is within the requested count, which is within the
buffer depth. -/
def cursorInv (s : I2CSlaveConfig) : Prop :=
  s.rxbufhead ≤ s.rxbytes ∧ s.rxbytes ≤ s.rxdepth ∧
  s.txbufhead ≤ s.txbytes ∧ s.txbytes ≤ s.txdepth

instance (s : I2CSlaveConfig) : Decidable (cursorInv s) :=
  inferInstanceAs (Decidable (_ ∧ _))

/-- One transfer-engine step preserves the binding invariant. -/
theorem i2cServeInterrupt_boundInv (d : I2CDriver) (h : boundInv d) :
    boundInv (i2cServeInterrupt d).1 := by
  obtain ⟨st, cfg, sl, hw⟩ := d
  cases st <;> cases sl <;>
    simp_all [boundInv, i2cServeInterrupt, i2cstate_t.isActive] <;>
    split <;> simp_all [i2cstate_t.isActive] <;>
    split <;> simp_all [i2cstate_t.isActive]

/-- Any number of transfer-engine steps preserves the binding invariant. -/
theorem runSteps_boundInv (fuel : Nat) :
    ∀ d : I2CDriver, boundInv d → boundInv (runSteps fuel d).1 := by
  induction fuel with
  | zero => intro d h; simpa [runSteps] using h
  | succ n ih =>
    intro d h
    by_cases hact : d.id_state.isActive = true
    · rw [runSteps_succ_active n d hact]
      exact ih _ (i2cServeInterrupt_boundInv d h)
    · rw [runSteps_inactive (n + 1) d (by simpa using hact)]
      exact h

/-- Modelled from the spec: the complete hardware trace of one
transaction bound by `master_transmit`: the actions of the binding call
followed by those of the transfer engine run to completion. -/
def transmitTrace (d : I2CDriver) (scfg : I2CSlaveConfig) : List HwAction :=
  (i2c_lld_master_transmit d scfg).hw ++
    (runSteps (scfg.txbytes + scfg.rxbytes + 2)
      (i2c_lld_master_transmit d scfg).drv).2.1

/-- Modelled from the spec: the complete hardware trace of one
transaction bound by `master_receive`. -/
def receiveTrace (d : I2CDriver) (scfg : I2CSlaveConfig) : List HwAction :=
  (i2c_lld_master_receive d scfg).hw ++
    (runSteps (scfg.rxbytes + 1) (i2c_lld_master_receive d scfg).drv).2.1

/-- A sample bus configuration (plain I2C, 100 kHz) for the concrete
witnesses. -/
def sampleConfig : I2CConfig :=
  ⟨.opmodeI2C, 100000, .stdDutyCycle, 16, 0⟩

/-- A sample transfer descriptor (one byte out, two bytes in, `restart`
set — the write-then-read idiom) for the concrete witnesses. -/
def sampleSlave : I2CSlaveConfig :=
  ⟨none, none, some [0, 0], 2, 2, 0, some [1], 1, 1, 0, 80, 0, true, none⟩

/-- An uninitialized driver instance for the concrete witnesses. -/
def sampleUninit : I2CDriver := ⟨.I2C_UNINIT, none, none, 0⟩

/-- A started, idle driver instance for the concrete witnesses. -/
def sampleReady : I2CDriver := ⟨.I2C_READY, some sampleConfig, none, 0⟩

/-- A driver instance with a transmit transaction in flight for the
concrete witnesses. -/
def sampleActive : I2CDriver :=
  ⟨.I2C_ACTIVE_TRANSMIT, some sampleConfig, some (bindSlave sampleSlave), 0⟩

/- ===================================================================
   Claim theorems
   =================================================================== -/

/-- C1: invoking any driver operation (`start`, `stop`,
`master_transmit`, `master_receive` or an NI variant) from a driver
state outside its documented precondition returns the `InvalidState`
error to the caller, performs no hardware action, dispatches no
callback, and leaves the driver — state, configuration and bound
descriptor — unchanged; the target descriptor, passed by value here, is
untouched because nothing is bound. -/
theorem invalidState_rejects_and_preserves (op : I2COp) (d : I2CDriver)
    (h : opStatePrecond op d.id_state = false) :
    (runOp op d).res = some .InvalidState ∧ (runOp op d).drv = d ∧
    (runOp op d).hw = [] ∧ (runOp op d).cbs = [] := by
  cases op with
  | start cfg =>
    have hne : ¬ d.id_state = .I2C_STOP := by simpa [opStatePrecond] using h
    simp [runOp, i2c_lld_start, hne]
  | stop =>
    have heq : d.id_state = .I2C_UNINIT := by simpa [opStatePrecond] using h
    simp [runOp, i2c_lld_stop, heq]
  | masterTransmit scfg =>
    have hne : ¬ d.id_state = .I2C_READY := by simpa [opStatePrecond] using h
    simp [runOp, i2c_lld_master_transmit, hne]
  | masterReceive scfg =>
    have hne : ¬ d.id_state = .I2C_READY := by simpa [opStatePrecond] using h
    simp [runOp, i2c_lld_master_receive, hne]
  | masterTransmitNI scfg r =>
    have hne : ¬ d.id_state = .I2C_READY := by simpa [opStatePrecond] using h
    simp [runOp, i2c_lld_master_transmit_NI, i2c_lld_master_transmit, hne]
  | masterReceiveNI scfg =>
    have hne : ¬ d.id_state = .I2C_READY := by simpa [opStatePrecond] using h
    simp [runOp, i2c_lld_master_receive_NI, i2c_lld_master_receive, hne]

/-- Witness for C1: `stop` on an uninitialized driver fails with
`InvalidState` and has no observable effect. -/
theorem invalidState_rejects_and_preserves_witness :
    (runOp .stop sampleUninit).res = some .InvalidState ∧
    (runOp .stop sampleUninit).drv = sampleUninit ∧
    (runOp .stop sampleUninit).hw = [] ∧
    (runOp .stop sampleUninit).cbs = [] :=
  invalidState_rejects_and_preserves .stop sampleUninit (by decide)

/-- C4: `stop()` requires only a non-`Uninitialized` state and always
succeeds there, transitioning to `Stopped`; if a transaction is in
flight it dispatches exactly one `on_error` with `Aborted` to the bound
descriptor, and with no active transaction it dispatches no callback. -/
theorem stop_aborts_inflight_transaction (d : I2CDriver)
    (h : d.id_state ≠ .I2C_UNINIT) :
    (i2c_lld_stop d).res = none ∧
    (i2c_lld_stop d).drv.id_state = .I2C_STOP ∧
    (d.id_state.isActive = true →
      (i2c_lld_stop d).cbs = [.Error .Aborted]) ∧
    (d.id_state.isActive = false → (i2c_lld_stop d).cbs = []) := by
  refine ⟨by simp [i2c_lld_stop, h], by simp [i2c_lld_stop, h], ?_, ?_⟩
  · intro hact
    simp [i2c_lld_stop, h, hact]
  · intro hact
    simp [i2c_lld_stop, h, hact]

/-- Witness for C4: `stop` on a driver with a transmit in flight
reports no synchronous error, ends `Stopped`, and dispatches exactly
one `Aborted` error callback. -/
theorem stop_aborts_inflight_transaction_witness :
    (i2c_lld_stop sampleActive).res = none ∧
    (i2c_lld_stop sampleActive).drv.id_state = .I2C_STOP ∧
    (sampleActive.id_state.isActive = true →
      (i2c_lld_stop sampleActive).cbs = [.Error .Aborted]) ∧
    (sampleActive.id_state.isActive = false →
      (i2c_lld_stop sampleActive).cbs = []) :=
  stop_aborts_inflight_transaction sampleActive (by decide)

/-- C6: a descriptor whose requested byte count exceeds the buffer
depth for the direction the operation uses is refused at binding time:
the call returns `BufferTooSmall` synchronously, performs no hardware
action and leaves the driver unchanged. -/
theorem bufferTooSmall_rejects_bind (d : I2CDriver) (scfg : I2CSlaveConfig)
    (hready : d.id_state = .I2C_READY) :
    (scfg.txdepth < scfg.txbytes →
      (i2c_lld_master_transmit d scfg).res = some .BufferTooSmall ∧
      (i2c_lld_master_transmit d scfg).drv = d ∧
      (i2c_lld_master_transmit d scfg).hw = []) ∧
    (scfg.rxdepth < scfg.rxbytes →
      (i2c_lld_master_receive d scfg).res = some .BufferTooSmall ∧
      (i2c_lld_master_receive d scfg).drv = d ∧
      (i2c_lld_master_receive d scfg).hw = []) := by
  constructor
  · intro hov
    have hf : bufferFits scfg = false := by
      simp [bufferFits]
      omega
    simp [i2c_lld_master_transmit, hready, hf]
  · intro hov
    have hf : bufferFits scfg = false := by
      simp [bufferFits]
      omega
    simp [i2c_lld_master_receive, hready, hf]

/-- Witness for C6: a receive requesting 3 bytes into a depth-2 buffer
is refused with `BufferTooSmall` and the driver is unchanged. -/
theorem bufferTooSmall_rejects_bind_witness :
    (i2c_lld_master_receive sampleReady
        ({ sampleSlave with rxbytes := 3 })).res = some .BufferTooSmall ∧
    (i2c_lld_master_receive sampleReady
        ({ sampleSlave with rxbytes := 3 })).drv = sampleReady ∧
    (i2c_lld_master_receive sampleReady
        ({ sampleSlave with rxbytes := 3 })).hw = [] :=
  (bufferTooSmall_rejects_bind sampleReady ({ sampleSlave with rxbytes := 3 })
    (by decide)).2 (by decide)

/-- C9: an operation applied to one of the two driver instances leaves
the other instance — its state, configuration, bound descriptor and
hardware handle — exactly as it was. -/
theorem operations_frame_other_instance (sys : I2CSystem) (i : I2CInstance)
    (op : I2COp) :
    (i = .D1 → (runOpOn sys i op).1.I2CD2 = sys.I2CD2) ∧
    (i = .D2 → (runOpOn sys i op).1.I2CD1 = sys.I2CD1) := by
  cases i <;> simp [runOpOn]

/-- Witness for C9: stopping instance 1 leaves instance 2 untouched. -/
theorem operations_frame_other_instance_witness :
    (runOpOn ⟨sampleReady, sampleActive⟩ .D1 .stop).1.I2CD2 = sampleActive :=
  (operations_frame_other_instance ⟨sampleReady, sampleActive⟩ .D1 .stop).1 rfl

/-- C10: a configuration accepted by `start` (no synchronous error)
has a `ClockSpeed` strictly below 400000; configurations at or above
400 kHz are outside the precondition and rejected. -/
theorem start_accepts_only_sub_400kHz (d : I2CDriver) (cfg : I2CConfig)
    (h : (i2c_lld_start d cfg).res = none) : cfg.ClockSpeed < 400000 := by
  by_cases hs : d.id_state = .I2C_STOP
  · by_cases hv : cfg.ClockSpeed < 400000
    · exact hv
    · exfalso
      have : i2cConfigValid cfg = false := by
        simp [i2cConfigValid]
        omega
      simp [i2c_lld_start, hs, this] at h
  · simp [i2c_lld_start, hs] at h

/-- Witness for C10: the accepted 100 kHz sample configuration is below
the 400 kHz bound. -/
theorem start_accepts_only_sub_400kHz_witness :
    sampleConfig.ClockSpeed < 400000 :=
  start_accepts_only_sub_400kHz ⟨.I2C_STOP, none, none, 0⟩ sampleConfig
    (by decide)

/-- C2: the equivalence "a descriptor is bound iff the state is
`ActiveTransmit` or `ActiveReceive`" is established by `init` and
preserved by every operation (`start`, `stop`, the transfer binds and
their NI variants), by each transfer-engine step — the completion path
that unbinds before dispatching the callback included — and by the
asynchronous error path. -/
theorem bound_descriptor_iff_active (d : I2CDriver) (h : boundInv d) :
    boundInv (i2c_lld_init d) ∧
    (∀ op : I2COp, boundInv (runOp op d).drv) ∧
    boundInv (i2cServeInterrupt d).1 ∧
    (∀ e : i2cerror_t, boundInv (i2cServeError d e).1) := by
  have h' : d.id_slave_config.isSome = d.id_state.isActive := h
  refine ⟨?_, ?_, i2cServeInterrupt_boundInv d h, ?_⟩
  · simp [boundInv, i2c_lld_init, i2cstate_t.isActive]
  · intro op
    cases op with
    | start cfg =>
      by_cases hs : d.id_state = .I2C_STOP
      · by_cases hv : i2cConfigValid cfg = true
        · have hsl : d.id_slave_config.isSome = false := by
            rw [h, hs]; rfl
          simp [runOp, i2c_lld_start, hs, hv, boundInv, i2cstate_t.isActive, hsl]
        · simp [runOp, i2c_lld_start, hs, Bool.not_eq_true _ ▸ hv,
            (Bool.not_eq_true _).mp hv, boundInv, h', i2cstate_t.isActive]
      · simp [runOp, i2c_lld_start, hs, boundInv, h', i2cstate_t.isActive]
    | stop =>
      by_cases hs : d.id_state = .I2C_UNINIT
      · simp [runOp, i2c_lld_stop, hs, boundInv, h', i2cstate_t.isActive]
      · simp [runOp, i2c_lld_stop, hs, boundInv, i2cstate_t.isActive]
    | masterTransmit scfg =>
      by_cases hs : d.id_state = .I2C_READY
      · by_cases hf : bufferFits scfg = true
        · simp [runOp, i2c_lld_master_transmit, hs, hf, boundInv,
            i2cstate_t.isActive]
        · simp [runOp, i2c_lld_master_transmit, hs,
            (Bool.not_eq_true _).mp hf, boundInv, h', i2cstate_t.isActive]
      · simp [runOp, i2c_lld_master_transmit, hs, boundInv, h', i2cstate_t.isActive]
    | masterReceive scfg =>
      by_cases hs : d.id_state = .I2C_READY
      · by_cases hf : bufferFits scfg = true
        · simp [runOp, i2c_lld_master_receive, hs, hf, boundInv,
            i2cstate_t.isActive]
        · simp [runOp, i2c_lld_master_receive, hs,
            (Bool.not_eq_true _).mp hf, boundInv, h', i2cstate_t.isActive]
      · simp [runOp, i2c_lld_master_receive, hs, boundInv, h', i2cstate_t.isActive]
    | masterTransmitNI scfg r =>
      by_cases hs : d.id_state = .I2C_READY
      · by_cases hf : bufferFits ({ scfg with restart := r }) = true
        · have hbound : boundInv
              ((i2c_lld_master_transmit d ({ scfg with restart := r })).drv) := by
            simp [i2c_lld_master_transmit, hs, hf, boundInv, i2cstate_t.isActive]
          have hrun := runSteps_boundInv (scfg.txbytes + scfg.rxbytes + 2) _ hbound
          simpa [runOp, i2c_lld_master_transmit_NI, i2c_lld_master_transmit,
            hs, hf] using hrun
        · simp [runOp, i2c_lld_master_transmit_NI, i2c_lld_master_transmit,
            hs, (Bool.not_eq_true _).mp hf, boundInv, h', i2cstate_t.isActive]
      · simp [runOp, i2c_lld_master_transmit_NI, i2c_lld_master_transmit,
          hs, boundInv, h', i2cstate_t.isActive]
    | masterReceiveNI scfg =>
      by_cases hs : d.id_state = .I2C_READY
      · by_cases hf : bufferFits scfg = true
        · have hbound : boundInv ((i2c_lld_master_receive d scfg).drv) := by
            simp [i2c_lld_master_receive, hs, hf, boundInv, i2cstate_t.isActive]
          have hrun := runSteps_boundInv (scfg.rxbytes + 1) _ hbound
          simpa [runOp, i2c_lld_master_receive_NI, i2c_lld_master_receive,
            hs, hf] using hrun
        · simp [runOp, i2c_lld_master_receive_NI, i2c_lld_master_receive,
            hs, (Bool.not_eq_true _).mp hf, boundInv, h', i2cstate_t.isActive]
      · simp [runOp, i2c_lld_master_receive_NI, i2c_lld_master_receive,
          hs, boundInv, h', i2cstate_t.isActive]
  · intro e
    by_cases hact : d.id_state.isActive = true
    · cases he : errorLocksBus e <;>
        simp [i2cServeError, hact, he, boundInv] <;>
        simp [i2cstate_t.isActive]
    · have hn : d.id_slave_config.isSome = false := by
        rw [h', (Bool.not_eq_true _).mp hact]
      simp [i2cServeError, (Bool.not_eq_true _).mp hact, boundInv]
      simpa using hn

/-- Witness for C2: on an idle started driver the invariant is
preserved by a concrete `master_transmit` bind. -/
theorem bound_descriptor_iff_active_witness :
    boundInv (runOp (.masterTransmit sampleSlave) sampleReady).drv :=
  (bound_descriptor_iff_active sampleReady (by decide)).2.1
    (.masterTransmit sampleSlave)

/-- C3: binding a descriptor establishes the buffer invariant — both
progress cursors restart at 0 and each requested byte count is within
its buffer depth — and every transfer-engine step preserves the
invariant while never decreasing either cursor of the still-bound
descriptor, so over the lifetime of a bound transaction
`0 ≤ cursor ≤ requested ≤ depth` holds and cursors are monotone. -/
theorem cursor_bounds_and_monotonicity (d : I2CDriver)
    (scfg scfg' : I2CSlaveConfig) :
    ((i2c_lld_master_transmit d scfg).res = none →
      ∀ b, (i2c_lld_master_transmit d scfg).drv.id_slave_config = some b →
        cursorInv b ∧ b.rxbufhead = 0 ∧ b.txbufhead = 0) ∧
    ((i2c_lld_master_receive d scfg).res = none →
      ∀ b, (i2c_lld_master_receive d scfg).drv.id_slave_config = some b →
        cursorInv b ∧ b.rxbufhead = 0 ∧ b.txbufhead = 0) ∧
    (d.id_slave_config = some scfg → cursorInv scfg →
      (i2cServeInterrupt d).1.id_slave_config = some scfg' →
      cursorInv scfg' ∧ scfg.rxbufhead ≤ scfg'.rxbufhead ∧
        scfg.txbufhead ≤ scfg'.txbufhead) := by
  refine ⟨?_, ?_, ?_⟩
  · intro hres b hb
    by_cases hs : d.id_state = .I2C_READY
    · by_cases hf : bufferFits scfg = true
      · have hfits : scfg.txbytes ≤ scfg.txdepth ∧ scfg.rxbytes ≤ scfg.rxdepth := by
          simpa [bufferFits] using hf
        simp [i2c_lld_master_transmit, hs, hf, bindSlave] at hb
        simp [← hb, cursorInv]
        omega
      · simp [i2c_lld_master_transmit, hs, (Bool.not_eq_true _).mp hf] at hres
    · simp [i2c_lld_master_transmit, hs] at hres
  · intro hres b hb
    by_cases hs : d.id_state = .I2C_READY
    · by_cases hf : bufferFits scfg = true
      · have hfits : scfg.txbytes ≤ scfg.txdepth ∧ scfg.rxbytes ≤ scfg.rxdepth := by
          simpa [bufferFits] using hf
        simp [i2c_lld_master_receive, hs, hf, bindSlave] at hb
        simp [← hb, cursorInv]
        omega
      · simp [i2c_lld_master_receive, hs, (Bool.not_eq_true _).mp hf] at hres
    · simp [i2c_lld_master_receive, hs] at hres
  · intro hb hinv hb'
    obtain ⟨st, cfg, sl, hw⟩ := d
    simp at hb
    subst hb
    unfold cursorInv at hinv
    cases st with
    | I2C_ACTIVE_TRANSMIT =>
      by_cases hlt : scfg.txbufhead < scfg.txbytes
      · simp [i2cServeInterrupt, hlt] at hb'
        simp [← hb', cursorInv]
        omega
      · by_cases hre : scfg.restart = true
        · simp [i2cServeInterrupt, hlt, hre] at hb'
          simp [← hb', cursorInv]
          omega
        · simp [i2cServeInterrupt, hlt, (Bool.not_eq_true _).mp hre] at hb'
    | I2C_ACTIVE_RECEIVE =>
      by_cases hlt : scfg.rxbufhead < scfg.rxbytes
      · simp [i2cServeInterrupt, hlt] at hb'
        simp [← hb', cursorInv]
        omega
      · simp [i2cServeInterrupt, hlt] at hb'
    | I2C_UNINIT =>
      simp [i2cServeInterrupt] at hb'
      simp [← hb', cursorInv]
      omega
    | I2C_STOP =>
      simp [i2cServeInterrupt] at hb'
      simp [← hb', cursorInv]
      omega
    | I2C_READY =>
      simp [i2cServeInterrupt] at hb'
      simp [← hb', cursorInv]
      omega
    | I2C_LOCKED =>
      simp [i2cServeInterrupt] at hb'
      simp [← hb', cursorInv]
      omega

/-- Witness for C3: one transfer-engine step on a concrete in-flight
transmit advances the tx cursor from 0 to 1 within bounds. -/
theorem cursor_bounds_and_monotonicity_witness :
    cursorInv ({ bindSlave sampleSlave with txbufhead := 1 }) ∧
    (bindSlave sampleSlave).rxbufhead ≤
      ({ bindSlave sampleSlave with txbufhead := 1 }).rxbufhead ∧
    (bindSlave sampleSlave).txbufhead ≤
      ({ bindSlave sampleSlave with txbufhead := 1 }).txbufhead :=
  (cursor_bounds_and_monotonicity sampleActive (bindSlave sampleSlave)
    ({ bindSlave sampleSlave with txbufhead := 1 })).2.2
    (by decide) (by decide) (by decide)

/-- C5: for a transaction bound in `Ready` with valid buffers, if
`restart = true` the complete hardware trace is start, the tx bytes, a
repeated start, the rx bytes, then stop — in particular the segment
before the repeated start that chains the receive phase contains no
stop condition; if `restart = false` the transmit trace ends with a
stop condition emitted at completion, and a receive transaction
likewise always ends with a stop condition. -/
theorem restart_chains_without_stop (d : I2CDriver) (scfg : I2CSlaveConfig)
    (hready : d.id_state = .I2C_READY) (hfit : bufferFits scfg = true) :
    (scfg.restart = true →
      transmitTrace d scfg =
        .StartCond :: (List.replicate scfg.txbytes .TxByte ++
          .RestartCond :: (List.replicate scfg.rxbytes .RxByte ++ [.StopCond])) ∧
      transmitTrace d scfg =
        (.StartCond :: List.replicate scfg.txbytes .TxByte) ++
          .RestartCond :: (List.replicate scfg.rxbytes .RxByte ++ [.StopCond]) ∧
      .StopCond ∉ .StartCond :: List.replicate scfg.txbytes HwAction.TxByte) ∧
    (scfg.restart = false →
      transmitTrace d scfg =
        .StartCond :: (List.replicate scfg.txbytes .TxByte ++ [.StopCond]) ∧
      (transmitTrace d scfg).getLast? = some .StopCond) ∧
    (receiveTrace d scfg =
      .StartCond :: (List.replicate scfg.rxbytes .RxByte ++ [.StopCond]) ∧
      (receiveTrace d scfg).getLast? = some .StopCond) := by
  have hbind : i2c_lld_master_transmit d scfg =
      ⟨{ d with
          id_state := .I2C_ACTIVE_TRANSMIT,
          id_slave_config := some (bindSlave scfg) },
        none, [.StartCond], []⟩ := by
    simp [i2c_lld_master_transmit, hready, hfit]
  have hbindr : i2c_lld_master_receive d scfg =
      ⟨{ d with
          id_state := .I2C_ACTIVE_RECEIVE,
          id_slave_config := some (bindSlave scfg) },
        none, [.StartCond], []⟩ := by
    simp [i2c_lld_master_receive, hready, hfit]
  refine ⟨?_, ?_, ?_⟩
  · intro hre
    have hrun := runSteps_tx_phase_restart (scfg.txbytes + scfg.rxbytes + 2)
      scfg.txbytes scfg.rxbytes
      ({ d with
          id_state := .I2C_ACTIVE_TRANSMIT,
          id_slave_config := some (bindSlave scfg) })
      (bindSlave scfg) (by omega) (by simp) (by simp)
      (by simp [bindSlave]) (by simpa [bindSlave] using hre) (by simp [bindSlave])
    have htr : transmitTrace d scfg =
        .StartCond :: (List.replicate scfg.txbytes .TxByte ++
          .RestartCond :: (List.replicate scfg.rxbytes .RxByte ++ [.StopCond])) := by
      simp [transmitTrace, hbind, bindSlave] at hrun ⊢
      rw [hrun]
    refine ⟨htr, by rw [htr]; simp, ?_⟩
    simp [List.mem_replicate]
  · intro hre
    have hrun := runSteps_tx_phase_norestart (scfg.txbytes + scfg.rxbytes + 2)
      scfg.txbytes
      ({ d with
          id_state := .I2C_ACTIVE_TRANSMIT,
          id_slave_config := some (bindSlave scfg) })
      (bindSlave scfg) (by omega) (by simp) (by simp)
      (by simp [bindSlave]) (by simpa [bindSlave] using hre)
    have htr : transmitTrace d scfg =
        .StartCond :: (List.replicate scfg.txbytes .TxByte ++ [.StopCond]) := by
      simp [transmitTrace, hbind, bindSlave] at hrun ⊢
      rw [hrun]
    refine ⟨htr, ?_⟩
    rw [htr]
    rw [show HwAction.StartCond ::
        (List.replicate scfg.txbytes HwAction.TxByte ++ [HwAction.StopCond]) =
        (HwAction.StartCond :: List.replicate scfg.txbytes HwAction.TxByte) ++
          [HwAction.StopCond] from rfl]
    exact List.getLast?_concat _
  · have hrun := runSteps_rx_phase (scfg.rxbytes + 1) scfg.rxbytes
      ({ d with
          id_state := .I2C_ACTIVE_RECEIVE,
          id_slave_config := some (bindSlave scfg) })
      (bindSlave scfg) (by omega) (by simp) (by simp) (by simp [bindSlave])
    have htr : receiveTrace d scfg =
        .StartCond :: (List.replicate scfg.rxbytes .RxByte ++ [.StopCond]) := by
      simp [receiveTrace, hbindr, bindSlave] at hrun ⊢
      rw [hrun]
    refine ⟨htr, ?_⟩
    rw [htr]
    rw [show HwAction.StartCond ::
        (List.replicate scfg.rxbytes HwAction.RxByte ++ [HwAction.StopCond]) =
        (HwAction.StartCond :: List.replicate scfg.rxbytes HwAction.RxByte) ++
          [HwAction.StopCond] from rfl]
    exact List.getLast?_concat _

/-- Witness for C5: the spec scenario — one byte out with `restart`,
two bytes in — yields the chained trace with the repeated start and no
intervening stop. -/
theorem restart_chains_without_stop_witness :
    transmitTrace sampleReady sampleSlave =
      .StartCond :: (List.replicate sampleSlave.txbytes .TxByte ++
        .RestartCond ::
          (List.replicate sampleSlave.rxbytes .RxByte ++ [.StopCond])) :=
  ((restart_chains_without_stop sampleReady sampleSlave (by decide)
    (by decide)).1 (by decide)).1

/-- C7: the packed `address` field — bit 15 selects 10-bit mode with 0
meaning 7-bit mode; a packed 7-bit address has bits 0..6 significant,
bit 15 clear and the unused bits 7..14 zero; a packed 10-bit address
has bit 15 set and bits 0..9 significant; any 16-bit value in 7-bit
mode whose unused bits 7..14 are zero is exactly its 7-bit address;
and binding carries the field unchanged to the wire-level transfer. -/
theorem address_field_packing (a slave : Nat) (d : I2CDriver)
    (scfg : I2CSlaveConfig) :
    ((i2c_lld_master_transmit d scfg).res = none →
      ∀ b, (i2c_lld_master_transmit d scfg).drv.id_slave_config = some b →
        b.address = scfg.address) ∧
    (slave < 128 →
      addrIs10bitMode (packAddr7 slave) = false ∧
      addr7 (packAddr7 slave) = slave ∧
      ∀ i, 7 ≤ i → i ≤ 14 → (packAddr7 slave).testBit i = false) ∧
    (slave < 1024 →
      addrIs10bitMode (packAddr10 slave) = true ∧
      addr10 (packAddr10 slave) = slave) ∧
    (a < 65536 → addrIs10bitMode a = false →
      (∀ i, 7 ≤ i → i ≤ 14 → a.testBit i = false) →
      a = addr7 a) := by
  refine ⟨?_, ?_, ?_, ?_⟩
  · intro hres b hb
    by_cases hs : d.id_state = .I2C_READY
    · by_cases hf : bufferFits scfg = true
      · simp [i2c_lld_master_transmit, hs, hf, bindSlave] at hb
        simp [← hb]
      · simp [i2c_lld_master_transmit, hs, (Bool.not_eq_true _).mp hf] at hres
    · simp [i2c_lld_master_transmit, hs] at hres
  · intro hlt
    have h1 : packAddr7 slave = slave := Nat.mod_eq_of_lt hlt
    refine ⟨?_, ?_, ?_⟩
    · unfold addrIs10bitMode
      rw [h1]
      refine Nat.testBit_lt_two_pow ?_
      calc slave < 128 := hlt
      _ < 2 ^ 15 := by norm_num
    · simp [addr7, h1, Nat.mod_eq_of_lt hlt]
    · intro i h7 _
      rw [h1]
      refine Nat.testBit_lt_two_pow ?_
      calc slave < 128 := hlt
      _ = 2 ^ 7 := by norm_num
      _ ≤ 2 ^ i := Nat.pow_le_pow_right (by norm_num) h7
  · intro hlt
    have hm : slave % 1024 = slave := Nat.mod_eq_of_lt hlt
    constructor
    · unfold addrIs10bitMode packAddr10
      rw [Nat.testBit_to_div_mod, hm]
      rw [show (2:Nat) ^ 15 = 32768 from by norm_num]
      simp only [decide_eq_true_eq]
      omega
    · unfold addr10 packAddr10
      omega
  · intro ha h15 hmid
    unfold addrIs10bitMode at h15
    apply Nat.eq_of_testBit_eq
    intro i
    unfold addr7
    rcases Nat.lt_or_ge i 7 with hlt | hge
    · rw [show (128:Nat) = 2 ^ 7 from rfl, Nat.testBit_mod_two_pow]
      simp [hlt]
    · have hz : a.testBit i = false := by
        rcases Nat.lt_or_ge i 15 with hlt15 | hge15
        · exact hmid i hge (by omega)
        · rcases Nat.eq_or_lt_of_le hge15 with he | hgt
          · rw [← he]
            exact h15
          · refine Nat.testBit_lt_two_pow ?_
            calc a < 65536 := ha
            _ = 2 ^ 16 := by norm_num
            _ ≤ 2 ^ i := Nat.pow_le_pow_right (by norm_num) (by omega)
      rw [hz, show (128:Nat) = 2 ^ 7 from rfl, Nat.testBit_mod_two_pow]
      simp [Nat.not_lt.mpr hge]

/-- Witness for C7: the packed 7-bit address 0x50 round-trips — 7-bit
mode, value 0x50, unused bits clear — and 0x50 packed is its own 7-bit
address. -/
theorem address_field_packing_witness :
    addrIs10bitMode (packAddr7 80) = false ∧
    addr7 (packAddr7 80) = 80 ∧
    ∀ i, 7 ≤ i → i ≤ 14 → (packAddr7 80).testBit i = false :=
  (address_field_packing 0 80 sampleReady sampleSlave).2.1 (by decide)

/-- C8: the LPC11xx clock checks accept a parameter set exactly when
the PLL multiplier lies in 1..32, the PLL divider is one of 2, 4, 8,
16, the CCO frequency (PLL input times multiplier) lies within
156 MHz..320 MHz, and the AHB clock (main clock divided by the AHB
divider) does not exceed 50 MHz; and whenever the PLL output drives
the main clock, the derived system clock is the exact integer value
`pllin * mul / div / ahbdiv`. -/
theorem clock_validation_and_formula (c : LPC11xxClockConfig) :
    (clockChecksPass c = true ↔
      ((1 ≤ c.syspllMul ∧ c.syspllMul ≤ 32) ∧
        (c.syspllDiv = 2 ∨ c.syspllDiv = 4 ∨ c.syspllDiv = 8 ∨
          c.syspllDiv = 16) ∧
        (156000000 ≤ c.syspllClkIn * c.syspllMul ∧
          c.syspllClkIn * c.syspllMul ≤ 320000000) ∧
        LPC11xx_MAINCLK c / c.sysclkDiv ≤ 50000000)) ∧
    (c.mainclkSource = .PLLOUT →
      LPC11xx_SYSCLK c =
        c.syspllClkIn * c.syspllMul / c.syspllDiv / c.sysclkDiv) := by
  constructor
  · simp [clockChecksPass, LPC11xx_SYSPLLCCO, LPC11xx_SYSCLK,
      Bool.and_eq_true, Bool.or_eq_true, beq_iff_eq, decide_eq_true_eq,
      and_assoc, or_assoc]
  · intro hsrc
    simp [LPC11xx_SYSCLK, LPC11xx_MAINCLK, LPC11xx_SYSPLLCLKOUT,
      LPC11xx_SYSPLLCCO, hsrc]

/-- A sample accepted clock parameter set (12 MHz oscillator, PLL x16
/4, PLL output as main clock, AHB divider 1 — a 48 MHz system clock)
for the concrete witness. -/
def sampleClock : LPC11xxClockConfig := ⟨12000000, 16, 4, .PLLOUT, 1⟩

/-- Witness for C8: on the sample parameter set the checks pass and the
system clock is the exact integer formula (48 MHz). -/
theorem clock_validation_and_formula_witness :
    LPC11xx_SYSCLK sampleClock =
      sampleClock.syspllClkIn * sampleClock.syspllMul / sampleClock.syspllDiv /
        sampleClock.sysclkDiv :=
  (clock_validation_and_formula sampleClock).2 rfl

end ChibiOS
